import Mathlib

/-!
Verification development for the knowledge-query frontend
(`frontend/verification-plan.js`, `frontend/auth.js`).

The JavaScript is embedded shallowly: each relevant method of
`KnowledgeQueryApp` / `CognitoAuthManager` becomes an executable Lean
definition over explicit state and oracle functions (the network backend,
the random generator, browser storage).  Theorems about those definitions
then settle the frozen claims about the orchestration layer.
-/

namespace VerifPlan

/-! ## Basic data -/

/-- A source citation object as returned by the backend and rendered by
`renderChatHistory` (lines 1144–1157).  JavaScript `||` treats the empty
string as falsy, so each field is an `Option String` and `jsOr` below
implements the `||` chains. -/
structure Source where
  fileName : Option String
  pdfFileName : Option String
  title : Option String
  presignedUrl : Option String
  sourceUri : Option String
  deriving Repr, DecidableEq

/-- JavaScript `a || b` on nullable strings: the empty string is falsy. -/
def jsOr (a b : Option String) : Option String :=
  match a with
  | some s => if s = "" then b else some s
  | none => b

/-- `String.prototype.trim()`: strip leading and trailing whitespace. -/
def jsTrim (s : String) : String :=
  ⟨((s.data.dropWhile Char.isWhitespace).reverse.dropWhile Char.isWhitespace).reverse⟩

/-- Maximal leading digit run of `parseInt`, `none` when there is none. -/
def parseDigitsAux : List Char → Nat → Bool → Option Nat
  | [], acc, seen => if seen then some acc else none
  | c :: rest, acc, seen =>
      if c.isDigit then parseDigitsAux rest (acc * 10 + (c.toNat - 48)) true
      else if seen then some acc else none

/-- `parseInt(s)` on the canonical decimal strings this code stores:
an optional sign followed by a maximal digit run; `none` plays `NaN`. -/
def jsParseInt (s : String) : Option Int :=
  match s.data with
  | '-' :: rest => (parseDigitsAux rest 0 false).map (fun n => -(n : Int))
  | l => (parseDigitsAux l 0 false).map (fun n => (n : Int))

/-- Insertion into a `≤`-sorted list of strings. -/
def insertSorted (x : String) : List String → List String
  | [] => [x]
  | y :: ys => if x ≤ y then x :: y :: ys else y :: insertSorted x ys

/-- `Array.prototype.sort()` on strings (default lexicographic order). -/
def sortStrings (l : List String) : List String :=
  l.foldr insertSorted []

/-- A chat message (`addChatMessage`, lines 1106–1126): `rating` and
`comment` are absent until feedback is stored (`submitFeedback`,
lines 1353–1362). -/
structure Message where
  role : String
  content : String
  sources : Option (List Source)
  timestamp : String
  messageId : Option String
  rating : Option Nat
  comment : Option String
  deriving Repr, DecidableEq

/-! ## Query polling (`submitQuery`, lines 1033–1095)

The status endpoint's reply for one poll.  A non-ok status response and a
`failed` status both throw in the source; they are kept separate so the
outcomes stay distinguishable. -/

inductive StatusReply where
  | completed (answer : String) (sources : List Source) (messageId : Option String)
  | failed (error : String)
  | processing
  | httpError (error : String)
  deriving Repr, DecidableEq

/-- Terminal outcome of the poll loop inside `submitQuery`. -/
inductive PollOutcome where
  | success (answer : String) (sources : List Source) (messageId : Option String)
  | failure (msg : String)
  | timedOut (msg : String)
  deriving Repr, DecidableEq

/-- The fixed timeout message thrown when the poll budget is exhausted
(line 1092: `'タイムアウトしました。管理者に問い合わせてください'`). -/
def timeoutMessage : String := "タイムアウトしました。管理者に問い合わせてください"

/-- The poll interval in milliseconds (line 1041:
`setTimeout(resolve, 3000)`). -/
def pollIntervalMs : Nat := 3000

/-- The poll budget (line 1034: `const maxAttempts = 60; // 180秒 / 3秒`). -/
def maxAttempts : Nat := 60

/--
One-to-one image of the `while (attempts < maxAttempts && !completed)`
loop: `attempts` is the counter so far, the second argument is the
remaining budget `maxAttempts - attempts`.  Each iteration increments
`attempts`, awaits the 3000 ms delay, and reads `statusAt attempts`.
Returns the final value of `attempts` (which also counts both the delays
and the status requests) together with the outcome.
-/
def pollAux (statusAt : Nat → StatusReply) : Nat → Nat → Nat × PollOutcome
  | attempts, 0 => (attempts, .timedOut timeoutMessage)
  | attempts, remaining + 1 =>
      let a := attempts + 1
      match statusAt a with
      | .completed ans srcs mid => (a, .success ans srcs mid)
      | .failed e => (a, .failure e)
      | .httpError e => (a, .failure e)
      | .processing => pollAux statusAt a remaining

/-- The poll loop of `submitQuery`, started at `attempts = 0` with budget
`maxAttempts = 60`. -/
def pollLoop (statusAt : Nat → StatusReply) : Nat × PollOutcome :=
  pollAux statusAt 0 maxAttempts

/-- Total wall-clock delay the loop awaits: 3000 ms before every status
request. -/
def pollElapsedMs (statusAt : Nat → StatusReply) : Nat :=
  pollIntervalMs * (pollLoop statusAt).1

/-! ## The authenticated request client (`apiRequest`, lines 842–911) -/

/-- An HTTP response; `ok` mirrors the `Response.ok` getter (status in
[200, 300)). -/
structure HttpResponse where
  status : Nat
  deriving Repr, DecidableEq

def HttpResponse.ok (r : HttpResponse) : Bool :=
  200 ≤ r.status && r.status < 300

/-- Thrown when no valid access token can be obtained (line 853). -/
def noTokenMessage : String := "認証セッションが切れました"

/-- Thrown when the 401 recovery fails (line 903). -/
def sessionExpiredMessage : String := "認証エラー: セッションが切れました"

/-- Environment of a single `apiRequest` call: what the auth manager and
the transport would answer at each of the (at most two refreshes/sends)
interaction points. -/
structure ApiEnv where
  /-- `this.authManager` is non-null. -/
  authManagerPresent : Bool
  /-- Result of the initial `authManager.getAccessToken()`. -/
  getAccessToken1 : Option String
  /-- Fallback `localStorage.getItem('cognito_id_token')`. -/
  storedIdToken : Option String
  /-- Fallback `localStorage.getItem('cognito_access_token')`. -/
  storedAccessToken : Option String
  /-- Response to the first `fetch`. -/
  firstResponse : HttpResponse
  /-- `(await authManager.refreshAccessToken()).success`. -/
  refreshSuccess : Bool
  /-- `authManager.getAccessToken()` after a successful refresh. -/
  getAccessToken2 : Option String
  /-- Response to the retry `fetch`. -/
  retryResponse : HttpResponse
  deriving Repr, DecidableEq

/-- What `apiRequest` ends with: a returned response or a thrown error
(both throw sites also set `window.location.href = 'index.html'`). -/
inductive ApiResult where
  | response (r : HttpResponse)
  | thrown (msg : String) (redirected : Bool)
  deriving Repr, DecidableEq

/-- Observable trace of one `apiRequest` call: how many times
`authManager.refreshAccessToken()` ran, the `Authorization` header of each
transport send in order (`none` = header absent), and the result. -/
structure ApiTrace where
  refreshCalls : Nat
  sentAuthHeaders : List (Option String)
  result : ApiResult
  deriving Repr, DecidableEq

/-- Number of transport sends in a trace. -/
def ApiTrace.sends (t : ApiTrace) : Nat := t.sentAuthHeaders.length

/-- The bearer header value (line 863: `` `Bearer ${accessToken}` ``). -/
def bearerOf (token : String) : String := "Bearer " ++ token

/--
Shallow embedding of `KnowledgeQueryApp.apiRequest` (lines 842–911).
Token acquisition, the single 401 refresh-and-retry, and the terminal
throw are translated branch for branch; the retry header is rebuilt from
`getAccessToken2` (a `none` there interpolates as the string `"null"`,
like the template literal in line 887).
-/
def apiRequest (env : ApiEnv) : ApiTrace :=
  let tokenResult : Option (Option String) :=
    if env.authManagerPresent then
      match env.getAccessToken1 with
      | none => none
      | some t => some (some t)
    else
      some (jsOr env.storedIdToken env.storedAccessToken)
  match tokenResult with
  | none =>
      { refreshCalls := 0, sentAuthHeaders := [], result := .thrown noTokenMessage true }
  | some accessToken =>
      let header1 := accessToken.map bearerOf
      if env.firstResponse.status = 401 then
        if env.authManagerPresent then
          if env.refreshSuccess then
            let newHeader := some (bearerOf ((env.getAccessToken2).getD "null"))
            if env.retryResponse.ok then
              { refreshCalls := 1, sentAuthHeaders := [header1, newHeader],
                result := .response env.retryResponse }
            else
              { refreshCalls := 1, sentAuthHeaders := [header1, newHeader],
                result := .thrown sessionExpiredMessage true }
          else
            { refreshCalls := 1, sentAuthHeaders := [header1],
              result := .thrown sessionExpiredMessage true }
        else
          { refreshCalls := 0, sentAuthHeaders := [header1],
            result := .thrown sessionExpiredMessage true }
      else
        { refreshCalls := 0, sentAuthHeaders := [header1],
          result := .response env.firstResponse }

/-! ## Outbound call sites of `verification-plan.js` (claim about the
single network chokepoint) -/

/-- A request as handed to the transport. -/
structure RequestDescriptor where
  path : String
  method : String
  headers : List (String × String)
  deriving Repr, DecidableEq

/-- The raw `fetch` of `loadChatHistory` (lines 926–938): it bypasses
`apiRequest`, sending only a `Content-Type` header — no `Authorization`
bearer header is attached and no 401 refresh-retry applies. -/
def loadChatHistoryRequest (apiEndpoint : String) : RequestDescriptor :=
  { path := apiEndpoint ++ "/knowledge-query"
    method := "POST"
    headers := [("Content-Type", "application/json")] }

/-- Identifier of the one call site that bypasses `apiRequest`. -/
def loadChatHistorySite : String := "loadChatHistory POST /knowledge-query"

/-- Every outbound network call site in `verification-plan.js` (grep for
`fetch(` and `apiRequest(`), paired with whether it goes through the
`apiRequest` wrapper.  The two `fetch` calls inside `apiRequest` itself
(lines 871, 888) are the transport of the wrapper, not separate sites. -/
def outboundCallSites : List (String × Bool) :=
  [ ("loadFolderTreeInModal GET /folders?registered_only=true", true),
    ("loadDefaultJobIdsForFolders GET /default-job", true),
    (loadChatHistorySite, false),
    ("submitQuery POST /knowledge-query/start", true),
    ("submitQuery GET /knowledge-query/status", true),
    ("submitFeedback POST /history", true),
    ("HistorySidebarManager.loadHistories POST /history", true),
    ("HistorySidebarManager.loadHistoryPreview POST /history", true),
    ("HistorySidebarManager.loadHistoryDetail POST /history", true),
    ("HistorySidebarManager.searchHistories POST /history", true) ]

/-! ## Browser storage -/

/-- `sessionStorage` / `localStorage` as an association list;
`getItem` returns the first binding (`storeSet` keeps keys unique). -/
def storeGet (st : List (String × String)) (k : String) : Option String :=
  match st.find? (fun e => e.1 = k) with
  | some e => some e.2
  | none => none

def storeSet (st : List (String × String)) (k v : String) : List (String × String) :=
  (st.filter (fun e => e.1 ≠ k)) ++ [(k, v)]

def storeRemove (st : List (String × String)) (k : String) : List (String × String) :=
  st.filter (fun e => e.1 ≠ k)

/-! ## Session identifiers (`initializeChatSession` lines 96–117,
`resetChatSession` lines 805–837) -/

/-- The template of `generateUUID`
(`'xxxxxxxx-xxxx-4xxx-yxxx-xxxxxxxxxxxx'`). -/
def uuidTemplate : String := "xxxxxxxx-xxxx-4xxx-yxxx-xxxxxxxxxxxx"

/--
The `replace(/[xy]/g, cb)` of `generateUUID`: the callback runs once per
match in order; `rnd i % 16` models the i-th `Math.random() * 16 | 0`
draw, `Nat.digitChar` the `toString(16)` of a nibble, and the `y` branch
computes `(r & 0x3 | 0x8)`.
-/
def uuidChars (rnd : Nat → Nat) : List Char → Nat → List Char
  | [], _ => []
  | c :: rest, i =>
      if c = 'x' then Nat.digitChar (rnd i % 16) :: uuidChars rnd rest (i + 1)
      else if c = 'y' then Nat.digitChar ((rnd i % 16) &&& 3 ||| 8) :: uuidChars rnd rest (i + 1)
      else c :: uuidChars rnd rest i

def generateUUID (rnd : Nat → Nat) : String :=
  ⟨uuidChars rnd uuidTemplate.data 0⟩

/-- The mode namespace prepended in `initializeChatSession` (line 108:
`'verification_' + generateUUID()`). -/
def modeTag : String := "verification_"

/-- Whether `p` occurs at the very start of `l`. -/
def isPrefixList : List Char → List Char → Bool
  | [], _ => true
  | _ :: _, [] => false
  | a :: as, b :: bs => if a = b then isPrefixList as bs else false

/-- Whether a session id carries the `verification_` mode namespace. -/
def modePrefixed (sid : String) : Bool :=
  isPrefixList modeTag.data sid.data

/-- `initializeChatSession` on the tab's `sessionStorage`: reuse the id
stored under `'verificationPlanSessionId'` if present, otherwise store a
fresh `'verification_' + generateUUID()`.  Returns the id together with
the updated store. -/
def initializeChatSession (uuid : String) (st : List (String × String)) :
    String × List (String × String) :=
  match storeGet st "verificationPlanSessionId" with
  | some sid => (sid, st)
  | none =>
      let sid := modeTag ++ uuid
      (sid, storeSet st "verificationPlanSessionId" sid)

/-- `resetChatSession` (lines 805–837), storage part: it removes the key
`'chatSessionId'`, generates a bare `generateUUID()` **without** the
`verification_` namespace, and stores it under `'chatSessionId'` — not
under the `'verificationPlanSessionId'` key that
`initializeChatSession` reads. -/
def resetChatSession (uuid : String) (st : List (String × String)) :
    String × List (String × String) :=
  let st1 := storeRemove st "chatSessionId"
  (uuid, storeSet st1 "chatSessionId" uuid)

/-! ## Page load (`detectHardRefresh` lines 66–89,
`loadSearchTargetFromStorage` lines 737–800) -/

/--
`detectHardRefresh`: reads `'lastPageLoadTime'`, declares the load a
same-session continuation when the stored time is less than 100 ms old,
saves the current time, and ors in `performance.navigation.type === 1`
when the performance API is available.  An unparsable stored value plays
the role of `NaN` (all its comparisons are false).
-/
def detectHardRefresh (now : Int) (perfNavType : Option Nat)
    (st : List (String × String)) : Bool × List (String × String) :=
  let isReload :=
    match storeGet st "lastPageLoadTime" with
    | some s =>
        match jsParseInt s with
        | some t => decide (now - t < 100)
        | none => false
    | none => false
  let st1 := storeSet st "lastPageLoadTime" (toString now)
  match perfNavType with
  | some ty => (!isReload || decide (ty = 1), st1)
  | none => (!isReload, st1)

/-- The browser state a page load starts from: the tab's
`sessionStorage` plus the two `localStorage` keys the loader reads
(`'selectedFolderPaths'` stored as JSON, modelled as the parsed list, and
`'selectedJobId'`). -/
structure BrowserState where
  sessionStore : List (String × String)
  storedFolderPaths : Option (List String)
  storedJobId : Option String
  deriving Repr, DecidableEq

/-- Result of the load pipeline run by the constructor:
`detectHardRefresh` → `initializeChatSession` →
`loadSearchTargetFromStorage`. -/
structure PageLoadResult where
  isHardRefresh : Bool
  chatSessionId : String
  selectedFolderPaths : List String
  selectedJobId : Option String
  queryInputDisabled : Bool
  modalOpened : Bool
  browser : BrowserState
  deriving Repr, DecidableEq

/--
The session/selection part of a page load, in constructor order
(lines 34–41): detect a hard refresh, initialize the chat session id,
then either clear the stored selection (hard refresh: lines 743–762) or
resume it from `localStorage` (lines 765–790).  On an empty resumed
selection the input stays disabled and the selection dialog opens.
-/
def pageLoad (now : Int) (perfNavType : Option Nat) (rnd : Nat → Nat)
    (b : BrowserState) : PageLoadResult :=
  let hard := detectHardRefresh now perfNavType b.sessionStore
  let init := initializeChatSession (generateUUID rnd) hard.2
  if hard.1 then
    { isHardRefresh := true
      chatSessionId := init.1
      selectedFolderPaths := []
      selectedJobId := none
      queryInputDisabled := true
      modalOpened := true
      browser := { sessionStore := init.2, storedFolderPaths := none, storedJobId := none } }
  else
    let folders := b.storedFolderPaths.getD []
    let jobId := b.storedJobId
    { isHardRefresh := false
      chatSessionId := init.1
      selectedFolderPaths := folders
      selectedJobId := jobId
      queryInputDisabled := folders.isEmpty
      modalOpened := folders.isEmpty
      browser := { b with sessionStore := init.2 } }

/-! ## Submit state (`submitQuery` lines 952–1105) -/

/-- Rejection message for an empty question (line 1043 region:
`'質問を入力してください'`). -/
def emptyQueryMessage : String := "質問を入力してください"

/-- Rejection message for a missing folder selection. -/
def noFolderMessage : String :=
  "検索対象のフォルダを選択してください（ヘッダーの「検索対象選択」ボタンから）"

/-- The pieces of `KnowledgeQueryApp` state that the submit path reads and
writes. -/
structure AppState where
  queryInputValue : String
  queryInputDisabled : Bool
  submitBtnDisabled : Bool
  loadingShown : Bool
  selectedFolderPaths : List String
  selectedJobId : Option String
  folderDefaultJobIds : List (String × String)
  chatSessionId : String
  chatMessages : List Message
  storedFolderPaths : Option (List String)
  storedJobId : Option String
  deriving Repr, DecidableEq

/-- How the synchronous head of `submitQuery` ends. -/
inductive SubmitOutcome where
  | rejectedEmptyQuery (msg : String)
  | rejectedNoFolder (msg : String)
  | accepted (query : String)
  deriving Repr, DecidableEq

/--
The synchronous prologue of `submitQuery` (lines 952–990, everything
before the first `await`): trim and validate the question, validate the
folder selection, disable the submit button and the input, show the
loading UI, append the user message, clear the input.  Returns the
decision and the state left for the asynchronous part.
-/
def submitPrologue (now : String) (s : AppState) : SubmitOutcome × AppState :=
  let query := jsTrim s.queryInputValue
  if query = "" then (.rejectedEmptyQuery emptyQueryMessage, s)
  else if s.selectedFolderPaths.isEmpty then (.rejectedNoFolder noFolderMessage, s)
  else
    let userMsg : Message :=
      { role := "user", content := query, sources := none, timestamp := now,
        messageId := none, rating := none, comment := none }
    ( .accepted query,
      { s with
          submitBtnDisabled := true
          queryInputDisabled := true
          loadingShown := true
          chatMessages := s.chatMessages ++ [userMsg]
          queryInputValue := "" } )

/-- The `finally` block of `submitQuery` (lines 1101–1104): re-enable the
submit button and the input once the query reaches a terminal outcome. -/
def submitFinally (s : AppState) : AppState :=
  { s with submitBtnDisabled := false, queryInputDisabled := false }

/-- The request body built by `submitQuery` (lines 983–1010).  `none`
fields are absent from the JSON. -/
structure RequestBody where
  query : String
  chat_session_id : String
  use_agent : Bool
  agent_type : String
  jobId : Option String
  selected_job_id : Option String
  folder_paths : Option (List String)
  folder_default_job_ids : Option (List (String × String))
  deriving Repr, DecidableEq

/--
Lines 983–1010: the base body carries the query, session id and agent
flags; if `selectedJobId` is set the body gets only `jobId` /
`selected_job_id`, otherwise it gets `folder_paths` and — when the
default map is non-empty — `folder_default_job_ids`.
-/
def buildRequestBody (s : AppState) (query : String) : RequestBody :=
  let base : RequestBody :=
    { query := query, chat_session_id := s.chatSessionId, use_agent := true,
      agent_type := "verification", jobId := none, selected_job_id := none,
      folder_paths := none, folder_default_job_ids := none }
  match s.selectedJobId with
  | some j => { base with jobId := some j, selected_job_id := some j }
  | none =>
      { base with
          folder_paths := some s.selectedFolderPaths
          folder_default_job_ids :=
            if s.folderDefaultJobIds.length > 0 then some s.folderDefaultJobIds else none }

/--
`loadDefaultJobIdsForFolders` (lines 693–714): for each selected folder,
query the default-job endpoint; only a response that is ok and carries a
truthy `job_id` adds the binding — a missing default, a non-ok response
and a thrown error all leave the folder out and the loop continues (the
oracle answers `none` in those cases).
-/
def loadDefaultJobIdsForFolders (defaultJobAt : String → Option String)
    (paths : List String) : List (String × String) :=
  paths.foldl
    (fun acc p =>
      match defaultJobAt p with
      | some j => acc ++ [(p, j)]
      | none => acc)
    []

/-- A keystroke into the query textarea: a disabled form control receives
no input events, so the value only changes when the input is enabled. -/
def typeIntoQueryInput (text : String) (s : AppState) : AppState :=
  if s.queryInputDisabled then s else { s with queryInputValue := text }

/-- `resetChatSession`'s effect on the app fields (lines 805–837): a new
bare-UUID session id and an emptied transcript.  (Folder selection is
kept: `// チャットのみリセット`.) -/
def resetChatSessionApp (uuid : String) (s : AppState) : AppState :=
  { s with chatSessionId := uuid, chatMessages := [] }

/--
`applySearchTarget` (lines 611–691), the state-relevant part: reject an
empty modal selection; when a conversation exists and the target changed,
ask for confirmation (`confirmReset` oracle) and reset the chat session
on consent; then store the new target, reload the per-folder defaults and
**re-enable the query textarea** (line 668: `queryInput.disabled =
false`) — regardless of whether a query is in flight.
-/
def applySearchTarget (confirmReset : Bool) (uuid : String)
    (modalJobIdInput : String) (defaultJobAt : String → Option String)
    (s : AppState) : AppState :=
  if s.selectedFolderPaths.isEmpty then s
  else
    let hasActiveSession := !s.chatMessages.isEmpty
    let previousFolderPaths := s.storedFolderPaths.getD []
    let newJobId := if jsTrim modalJobIdInput = "" then none else some (jsTrim modalJobIdInput)
    let foldersChanged :=
      sortStrings previousFolderPaths ≠ sortStrings s.selectedFolderPaths
    let jobIdChanged := s.storedJobId ≠ newJobId
    let changed := foldersChanged || jobIdChanged
    if hasActiveSession && changed && !confirmReset then s
    else
      let s0 := if hasActiveSession && changed then resetChatSessionApp uuid s else s
      { s0 with
          selectedJobId := newJobId
          storedFolderPaths := some s.selectedFolderPaths
          storedJobId := newJobId
          folderDefaultJobIds := loadDefaultJobIdsForFolders defaultJobAt s.selectedFolderPaths
          queryInputDisabled := false }

/-! ## Feedback (`submitFeedback` lines 1323–1369) -/

/-- `this.chatMessages.find(m => m.messageId === messageId)`. -/
def findMessage (msgs : List Message) (mid : String) : Option Message :=
  msgs.find? (fun m => decide (m.messageId = some mid))

/-- The local update after the server confirmed: set `rating` when one was
submitted, set `comment` when one was submitted, on the first matching
message only (JS `find` returns the first match). -/
def applyFeedback (mid : String) (rating : Option Nat) (comment : Option String) :
    List Message → List Message
  | [] => []
  | m :: rest =>
      if m.messageId = some mid then
        { m with
            rating := if rating.isSome then rating else m.rating
            comment := if comment.isSome then comment else m.comment } :: rest
      else m :: applyFeedback mid rating comment rest

/-- `submitFeedback`: the message list is touched only after a successful
server response (`response.ok`); on failure the error is shown and the
list is left exactly as it was — no optimistic update exists to roll
back. -/
def submitFeedback (serverOk : Bool) (msgs : List Message) (mid : String)
    (rating : Option Nat) (comment : Option String) : List Message :=
  if serverOk then applyFeedback mid rating comment msgs else msgs

/-! ## HTML escaping and rendering (`escapeHtml` lines 1495–1504,
`renderChatHistory` lines 1128–1179, `createFeedbackHtml`
lines 1181–1224) -/

/-- The per-character replacement of
`text.replace(/[&<>"']/g, m => map[m])`. -/
def escChar (c : Char) : List Char :=
  if c = '&' then "&amp;".data
  else if c = '<' then "&lt;".data
  else if c = '>' then "&gt;".data
  else if c = '"' then "&quot;".data
  else if c = '\'' then "&#039;".data
  else [c]

def escList : List Char → List Char
  | [] => []
  | c :: cs => escChar c ++ escList cs

/-- `KnowledgeQueryApp.escapeHtml`. -/
def escapeHtml (s : String) : String := ⟨escList s.data⟩

/-- `replace(/\n/g, '<br>')`, character-wise. -/
def brChar (c : Char) : List Char :=
  if c = '\n' then "<br>".data else [c]

def brList : List Char → List Char
  | [] => []
  | c :: cs => brChar c ++ brList cs

def newlineToBr (s : String) : String := ⟨brList s.data⟩

/-- `replace(/"/g, '&quot;')`, character-wise (used for the copy button's
`data-content`). -/
def quotChar (c : Char) : List Char :=
  if c = '"' then "&quot;".data else [c]

def quotList : List Char → List Char
  | [] => []
  | c :: cs => quotChar c ++ quotList cs

def quotEscape (s : String) : String := ⟨quotList s.data⟩

/-- The five entities `escapeHtml` can emit. -/
def htmlEntities : List (List Char) :=
  ["&amp;".data, "&lt;".data, "&gt;".data, "&quot;".data, "&#039;".data]

/-- True when none of `< > " '` occurs in `l`. -/
def noSpecialChars (l : List Char) : Bool :=
  l.all (fun c => !(c == '<') && !(c == '>') && !(c == '"') && !(c == '\''))

/-- `anyStartsHere es l`: some candidate string in `es` sits at the start
of `l`. -/
def anyStartsHere (es : List (List Char)) (l : List Char) : Bool :=
  es.any (fun e => isPrefixList e l)

/-- `marksOk x es l`: every occurrence of the character `x` in `l` is the
start of one of the strings in `es`. -/
def marksOk (x : Char) (es : List (List Char)) : List Char → Bool
  | [] => true
  | c :: rest =>
      (if c = x then anyStartsHere es (c :: rest) else true) && marksOk x es rest

/-- The markup inserted for a message body (line 1136:
`this.escapeHtml(msg.content).replace(/\n/g, '<br>')`). -/
def contentMarkup (content : String) : String :=
  newlineToBr (escapeHtml content)

/-- `['1', …, '10']` of `createFeedbackHtml`. -/
def ratingNumbers : List String :=
  ["1", "2", "3", "4", "5", "6", "7", "8", "9", "10"]

/-- One rating button of `createFeedbackHtml` (index `idx`, label `num`). -/
def ratingButtonHtml (messageId : String) (existingRating : Option Nat)
    (idx : Nat) (num : String) : String :=
  let rating := idx + 1
  let isSelected := if existingRating = some rating then " active" else ""
  "<button class=\"rating-btn" ++ isSelected ++ "\" data-message-id=\"" ++ messageId ++
    "\" data-rating=\"" ++ toString rating ++ "\" title=\"評価: " ++ num ++ "\">" ++
    num ++ "</button>"

/-- `createFeedbackHtml` (lines 1181–1224), with the same interpolations;
`existingComment`'s JS truthiness makes an empty comment render nothing. -/
def createFeedbackHtml (messageId : String) (existingRating : Option Nat)
    (existingComment : Option String) (contentForCopy : String) : String :=
  let ratingButtons :=
    String.join ((List.range ratingNumbers.length).zip ratingNumbers |>.map
      (fun p => ratingButtonHtml messageId existingRating p.1 p.2))
  let ratingDisplay :=
    match existingRating with
    | some r =>
        "<div class=\"feedback-display\">評価: " ++
          (ratingNumbers.getD (r - 1) "undefined") ++ "</div>"
    | none => ""
  let commentDisplay :=
    match existingComment with
    | some c =>
        if c = "" then ""
        else "<div class=\"feedback-display\">コメント: " ++ escapeHtml c ++ "</div>"
    | none => ""
  let displayHtml := ratingDisplay ++ commentDisplay
  "\n            <div class=\"feedback-section\">\n                <div class=\"rating-group\">\n                    <span class=\"rating-label\" title=\"低評価\">👎</span>\n                    " ++
    ratingButtons ++
    "\n                    <span class=\"rating-label\" title=\"高評価\">👍</span>\n                </div>\n                <button class=\"comment-btn\" data-message-id=\"" ++
    messageId ++
    "\" title=\"コメントを追加\">💬 コメント</button>\n                <button class=\"copy-btn\" data-message-id=\"" ++
    messageId ++ "\" data-content=\"" ++ contentForCopy ++
    "\" title=\"内容をコピー\">コピー</button>\n            </div>\n            " ++
    displayHtml ++
    "\n            <div class=\"comment-panel\" id=\"comment-panel-" ++ messageId ++
    "\" style=\"display: none;\">\n                <textarea class=\"comment-input\" placeholder=\"コメントを入力...\" maxlength=\"500\">" ++
    (match existingComment with
     | some c => if c = "" then "" else c
     | none => "") ++
    "</textarea>\n                <div class=\"comment-actions\">\n                    <button class=\"btn btn-small comment-submit-btn\" data-message-id=\"" ++
    messageId ++
    "\">送信</button>\n                    <button class=\"btn btn-small comment-cancel-btn\" data-message-id=\"" ++
    messageId ++ "\">キャンセル</button>\n                </div>\n            </div>\n        "

/-- One `<li>` of the sources list (lines 1146–1156). -/
def sourceItemHtml (src : Source) : String :=
  let fileName :=
    (jsOr (jsOr (jsOr src.fileName src.pdfFileName) src.title) (some "Document")).getD "Document"
  match jsOr src.presignedUrl src.sourceUri with
  | some url =>
      "<li><a href=\"" ++ escapeHtml url ++
        "\" target=\"_blank\" rel=\"noopener noreferrer\" class=\"source-link\">📄 " ++
        escapeHtml fileName ++ "</a></li>"
  | none => "<li>📄 " ++ escapeHtml fileName ++ "</li>"

/-- The sources block (lines 1143–1158), present only when the message has
a non-empty sources list. -/
def sourcesBlockHtml (sources : Option (List Source)) : String :=
  match sources with
  | some srcs =>
      if srcs.isEmpty then ""
      else
        "<div class=\"sources-list\"><strong>参考資料:</strong><ul>" ++
          String.join (srcs.map sourceItemHtml) ++ "</ul></div>"
  | none => ""

/-- The feedback block appended for assistant messages that carry a
`messageId` (lines 1161–1163): note the content reaches it only as
`escapeHtml(msg.content).replace(/"/g, '&quot;')`. -/
def feedbackBlockHtml (msg : Message) : String :=
  match msg.messageId with
  | some mid =>
      if msg.role = "assistant" then
        createFeedbackHtml mid msg.rating msg.comment (quotEscape (escapeHtml msg.content))
      else ""
  | none => ""

/-- The markup of one chat message (lines 1131–1166). -/
def renderMessageHtml (msg : Message) : String :=
  let roleClass := if msg.role = "user" then "user-message" else "assistant-message"
  let roleLabel := if msg.role = "user" then "あなた" else "AI先輩"
  "\n                <div class=\"chat-message " ++ roleClass ++
    "\">\n                    <strong>" ++ roleLabel ++
    "</strong>\n                    <p>" ++ contentMarkup msg.content ++
    "</p>\n            " ++
    sourcesBlockHtml msg.sources ++
    feedbackBlockHtml msg ++
    "<small class=\"timestamp\">" ++ msg.timestamp ++ "</small></div>"

/-- `renderChatHistory`'s markup: `chatMessages.map(…).join('')`
(lines 1131–1167). -/
def renderChatHistory (msgs : List Message) : String :=
  String.join (msgs.map renderMessageHtml)

/-! ## Concrete instances used to evaluate the embedding -/

/-- A 401 first response whose recovery refresh fails. -/
def envRefreshFails : ApiEnv :=
  { authManagerPresent := true, getAccessToken1 := some "tok",
    storedIdToken := none, storedAccessToken := none,
    firstResponse := ⟨401⟩, refreshSuccess := false,
    getAccessToken2 := none, retryResponse := ⟨401⟩ }

/-- A 401 first response whose refresh succeeds and whose resend is ok. -/
def envRefreshOk : ApiEnv :=
  { authManagerPresent := true, getAccessToken1 := some "tok",
    storedIdToken := none, storedAccessToken := none,
    firstResponse := ⟨401⟩, refreshSuccess := true,
    getAccessToken2 := some "tok2", retryResponse := ⟨200⟩ }

/-- An app state ready to submit its first query. -/
def readyDemoState : AppState :=
  { queryInputValue := "最初の質問", queryInputDisabled := false,
    submitBtnDisabled := false, loadingShown := false,
    selectedFolderPaths := ["設備A"], selectedJobId := none,
    folderDefaultJobIds := [("設備A", "JOB-1")],
    chatSessionId := "verification_s", chatMessages := [],
    storedFolderPaths := some ["設備A"], storedJobId := none }

/--
The interleaving available while the first query is polling (between
`submitPrologue` and `submitFinally`, every poll iteration is an `await`):
the user applies the search-target dialog with the unchanged selection
(which re-enables the textarea), types a new question, and submits again.
-/
def secondSubmitScenario : SubmitOutcome × AppState :=
  let first := submitPrologue "t1" readyDemoState
  let s1 := applySearchTarget true "u" "" (fun _ => some "JOB-1") first.2
  let s2 := typeIntoQueryInput "追加の質問" s1
  submitPrologue "t2" s2

/-- A demo default-job oracle: collection `A` has a default generation,
collection `B` has none. -/
def demoDefaultJob : String → Option String :=
  fun p => if p = "A" then some "g1" else none

/-- App state scoped by collections without an explicit job reference. -/
def demoFolderState : AppState :=
  { readyDemoState with
      selectedFolderPaths := ["A", "B"]
      folderDefaultJobIds := loadDefaultJobIdsForFolders demoDefaultJob ["A", "B"] }

/-- App state carrying an explicit job reference next to a selection. -/
def demoExplicitJobState : AppState :=
  { readyDemoState with selectedJobId := some "JOB-9" }

/-- A tab reloaded long after the previous load, with an existing session
id in `sessionStorage` and no stored collection selection. -/
def reloadDemoBrowser : BrowserState :=
  { sessionStore :=
      [("lastPageLoadTime", "1000"), ("verificationPlanSessionId", "verification_old")],
    storedFolderPaths := none, storedJobId := none }

/-- An assistant message carrying a feedback key. -/
def demoMsg : Message :=
  { role := "assistant", content := "回答", sources := none,
    timestamp := "2026/1/1 0:00:00", messageId := some "m1",
    rating := none, comment := none }

def demoMsgs : List Message := [demoMsg]

/-! # Theorems -/

/-! ## Shared lemmas -/

lemma pollAux_all_processing (statusAt : Nat → StatusReply)
    (h : ∀ n, statusAt n = .processing) :
    ∀ remaining attempts,
      pollAux statusAt attempts remaining =
        (attempts + remaining, .timedOut timeoutMessage) := by
  intro remaining
  induction remaining with
  | zero => intro attempts; simp [pollAux]
  | succ r ih =>
      intro attempts
      rw [pollAux, h (attempts + 1), ih (attempts + 1)]
      ring_nf

lemma loadDefault_foldl_acc (defaultJobAt : String → Option String) :
    ∀ (paths : List String) (acc : List (String × String)),
      paths.foldl
          (fun a p =>
            match defaultJobAt p with
            | some j => a ++ [(p, j)]
            | none => a)
          acc =
        acc ++ paths.filterMap (fun p => (defaultJobAt p).map (fun j => (p, j))) := by
  intro paths
  induction paths with
  | nil => intro acc; simp
  | cons p rest ih =>
      intro acc
      rcases hx : defaultJobAt p with _ | j <;>
        simp [List.foldl_cons, List.filterMap_cons, hx, ih]

lemma loadDefault_eq_filterMap (defaultJobAt : String → Option String)
    (paths : List String) :
    loadDefaultJobIdsForFolders defaultJobAt paths =
      paths.filterMap (fun p => (defaultJobAt p).map (fun j => (p, j))) := by
  simpa using loadDefault_foldl_acc defaultJobAt paths []

lemma loadDefault_map_fst (defaultJobAt : String → Option String)
    (paths : List String) :
    (loadDefaultJobIdsForFolders defaultJobAt paths).map Prod.fst =
      paths.filter (fun p => (defaultJobAt p).isSome) := by
  rw [loadDefault_eq_filterMap]
  induction paths with
  | nil => rfl
  | cons p rest ih =>
      rcases hx : defaultJobAt p with _ | j <;>
        simp [List.filterMap_cons, List.filter_cons, hx, ih]

lemma find_filter_ne (k k' : String) (h : k' ≠ k) :
    ∀ st : List (String × String),
      List.find? (fun e => decide (e.1 = k'))
          (st.filter (fun e => decide (e.1 ≠ k))) =
        List.find? (fun e => decide (e.1 = k')) st := by
  intro st
  induction st with
  | nil => rfl
  | cons e rest ih =>
      rw [List.filter_cons]
      by_cases he : e.1 = k
      · have he2 : ¬ (decide (e.1 = k') = true) := by
          simp only [decide_eq_true_eq]
          exact fun hh => h (hh ▸ he ▸ rfl)
        rw [if_neg (by simp [he]), List.find?_cons_of_neg rest he2, ih]
      · rw [if_pos (by simp [he])]
        by_cases he2 : e.1 = k'
        · rw [List.find?_cons_of_pos _ (by simp [he2]),
            List.find?_cons_of_pos _ (by simp [he2])]
        · rw [List.find?_cons_of_neg _ (by simp [he2]),
            List.find?_cons_of_neg _ (by simp [he2]), ih]

lemma storeGet_set_ne (st : List (String × String)) (k v k' : String)
    (h : k' ≠ k) : storeGet (storeSet st k v) k' = storeGet st k' := by
  have h2 : List.find? (fun e => decide (e.1 = k')) [(k, v)] = none := by
    simp [List.find?_cons, Ne.symm h]
  unfold storeGet storeSet
  rw [List.find?_append, find_filter_ne k k' h st, h2, Option.or_none]

lemma storeGet_remove_ne (st : List (String × String)) (k k' : String)
    (h : k' ≠ k) : storeGet (storeRemove st k) k' = storeGet st k' := by
  unfold storeGet storeRemove
  rw [find_filter_ne k k' h st]

lemma digitChar_ne_v : ∀ k, k < 16 → Nat.digitChar k ≠ 'v' := by decide

lemma isPrefixList_append_self : ∀ p t : List Char, isPrefixList p (p ++ t) = true := by
  intro p
  induction p with
  | nil => intro t; rfl
  | cons a as ih => intro t; simp [isPrefixList, ih]

lemma modePrefixed_generateUUID (rnd : Nat → Nat) :
    modePrefixed (generateUUID rnd) = false := by
  have h16 : rnd 0 % 16 < 16 := Nat.mod_lt _ (by norm_num)
  have hne : ('v' : Char) ≠ Nat.digitChar (rnd 0 % 16) :=
    fun hh => digitChar_ne_v _ h16 hh.symm
  have e2 : (generateUUID rnd).data =
      Nat.digitChar (rnd 0 % 16) ::
        uuidChars rnd "xxxxxxx-xxxx-4xxx-yxxx-xxxxxxxxxxxx".data 1 := rfl
  have e1 : modeTag.data = 'v' :: "erification_".data := rfl
  rw [modePrefixed, e1, e2, isPrefixList, if_neg hne]

lemma modePrefixed_append_tag (s : String) :
    modePrefixed (modeTag ++ s) = true := by
  rw [modePrefixed, String.data_append]
  exact isPrefixList_append_self modeTag.data s.data

/-! ## C1: bounded polling -/

/--
C1: if the status endpoint never reports `completed` or `failed` (every
poll sees a still-processing reply), the poll loop of `submitQuery` makes
exactly 60 status requests — one after each 3000 ms delay, 180 s in
total — and terminates in the distinct timed-out outcome carrying the
fixed user-facing message, rather than polling forever.
-/
theorem submitQuery_polls_sixty_then_timeout
    (statusAt : Nat → StatusReply) (h : ∀ n, statusAt n = .processing) :
    pollLoop statusAt = (60, .timedOut timeoutMessage) ∧
    pollElapsedMs statusAt = 180000 := by
  have h1 := pollAux_all_processing statusAt h maxAttempts 0
  constructor
  · simpa [pollLoop, maxAttempts] using h1
  · simp only [pollElapsedMs, pollLoop, maxAttempts, pollIntervalMs] at h1 ⊢
    rw [h1]
    norm_num

/-- Witness for C1 at the backend that always answers `processing`. -/
theorem submitQuery_polls_sixty_then_timeout_witness :
    pollLoop (fun _ => .processing) = (60, .timedOut timeoutMessage) ∧
    pollElapsedMs (fun _ => .processing) = 180000 :=
  submitQuery_polls_sixty_then_timeout (fun _ => .processing) (fun _ => rfl)

/-! ## C2: refresh-retry-once -/

/--
C2 counterexample: a 401 whose recovery refresh fails.  `apiRequest`
performs the single refresh call and then throws the terminal
session-expired error **without resending the original request**: only
one transport send happens, refuting ".. and resends the original request
exactly once" as a property of every 401-receiving request.
-/
theorem refresh_fail_no_resend_cex :
    envRefreshFails.firstResponse.status = 401 ∧
    (apiRequest envRefreshFails).refreshCalls = 1 ∧
    (apiRequest envRefreshFails).sends = 1 ∧
    ¬ (apiRequest envRefreshFails).sends = 2 ∧
    (apiRequest envRefreshFails).result = .thrown sessionExpiredMessage true := by
  refine ⟨rfl, rfl, rfl, by decide, rfl⟩

/--
C2 amended: on a 401 response (auth manager present, initial token
obtained), `apiRequest` invokes the credential refresh exactly once; when
the refresh succeeds it resends the original request exactly once (one
resend regardless of whether the resend also fails), and when the refresh
fails it does not resend at all; it never refreshes or resends a second
time (the trace holds at most two sends), and whenever the refresh fails
or the resend is not successful it ends in the terminal session-expired
error.
-/
theorem apiRequest_refresh_retry_once (env : ApiEnv)
    (hm : env.authManagerPresent = true)
    (ht : env.getAccessToken1.isSome)
    (h401 : env.firstResponse.status = 401) :
    (apiRequest env).refreshCalls = 1 ∧
    (apiRequest env).sends = (if env.refreshSuccess then 2 else 1) ∧
    (apiRequest env).sends ≤ 2 ∧
    (env.refreshSuccess = false →
      (apiRequest env).result = .thrown sessionExpiredMessage true) ∧
    (env.refreshSuccess = true → env.retryResponse.ok = true →
      (apiRequest env).result = .response env.retryResponse) ∧
    (env.refreshSuccess = true → env.retryResponse.ok = false →
      (apiRequest env).result = .thrown sessionExpiredMessage true) := by
  obtain ⟨t, ht⟩ := Option.isSome_iff_exists.mp ht
  cases hr : env.refreshSuccess <;>
    cases hok : env.retryResponse.ok <;>
      simp [apiRequest, ApiTrace.sends, hm, ht, h401, hr, hok]

/-- Witness for C2's amended theorem at a 401 whose refresh succeeds and
whose resend is ok. -/
theorem apiRequest_refresh_retry_once_witness :
    (apiRequest envRefreshOk).refreshCalls = 1 ∧
    (apiRequest envRefreshOk).sends = 2 ∧
    (apiRequest envRefreshOk).result = .response ⟨200⟩ := by
  have h := apiRequest_refresh_retry_once envRefreshOk rfl (by decide) rfl
  exact ⟨h.1, by simpa using h.2.1, h.2.2.2.2.1 rfl rfl⟩

/-! ## C3: single in-flight query -/

/--
C3 counterexample: while the first query is between `submitPrologue` and
`submitFinally` (every poll iteration of `submitQuery` is an `await`),
the user can run `applySearchTarget` with the unchanged selection — which
re-enables the query textarea — type a new question into the now-enabled
input, and invoke submit again.  The second invocation is **accepted**,
not rejected or ignored, so a second `queryId` becomes active while the
first query is still polling.
-/
theorem second_submit_during_polling_cex :
    (submitPrologue "t1" readyDemoState).1 = .accepted "最初の質問" ∧
    secondSubmitScenario.1 = .accepted "追加の質問" := by
  constructor <;> decide

/--
C3 amended: the submit affordance is disabled for the whole duration of
an in-flight query — the prologue of `submitQuery` disables the submit
button and the query input and clears the input's value, the poll loop
never touches them, and only the terminal `finally` block re-enables
them — and invoking submit again in the state `submitQuery` itself leaves
behind is rejected by the empty-question guard without any state change.
There is, however, no explicit in-flight guard: if `applySearchTarget`
re-enables the input during polling and new text is typed, a second
submit is accepted (see the counterexample).
-/
theorem inflight_submit_rejected (s : AppState) (now now2 q : String)
    (h : (submitPrologue now s).1 = .accepted q) :
    (submitPrologue now s).2.submitBtnDisabled = true ∧
    (submitPrologue now s).2.queryInputDisabled = true ∧
    (submitPrologue now s).2.queryInputValue = "" ∧
    submitPrologue now2 (submitPrologue now s).2 =
      (.rejectedEmptyQuery emptyQueryMessage, (submitPrologue now s).2) ∧
    (submitFinally (submitPrologue now s).2).submitBtnDisabled = false ∧
    (submitFinally (submitPrologue now s).2).queryInputDisabled = false := by
  have hempty : jsTrim "" = "" := rfl
  by_cases h1 : jsTrim s.queryInputValue = ""
  · simp [submitPrologue, h1] at h
  · by_cases h2 : s.selectedFolderPaths.isEmpty
    · simp [submitPrologue, h1, h2] at h
    · simp [submitPrologue, h1, h2, submitFinally, hempty]

/-- Witness for C3's amended theorem at the demo state. -/
theorem inflight_submit_rejected_witness :
    (submitPrologue "t1" readyDemoState).2.submitBtnDisabled = true ∧
    (submitPrologue "t1" readyDemoState).2.queryInputDisabled = true ∧
    (submitPrologue "t1" readyDemoState).2.queryInputValue = "" ∧
    submitPrologue "t2" (submitPrologue "t1" readyDemoState).2 =
      (.rejectedEmptyQuery emptyQueryMessage, (submitPrologue "t1" readyDemoState).2) ∧
    (submitFinally (submitPrologue "t1" readyDemoState).2).submitBtnDisabled = false ∧
    (submitFinally (submitPrologue "t1" readyDemoState).2).queryInputDisabled = false :=
  inflight_submit_rejected readyDemoState "t1" "t2" "最初の質問" (by decide)

/-! ## C4: explicit reference takes precedence over collection scoping -/

/--
C4: whenever the selection carries an explicit job reference (and a
non-empty set of selected paths), the scoping filter sent with the
submitted query is the single `jobId` pair derived only from the explicit
reference: the body carries no `folder_paths` and no
`folder_default_job_ids`, and changing the selected paths or the per-path
defaults changes nothing about the built body.
-/
theorem explicit_job_filter_precedence (s : AppState) (q j : String)
    (hj : s.selectedJobId = some j) (_hp : s.selectedFolderPaths ≠ []) :
    (buildRequestBody s q).jobId = some j ∧
    (buildRequestBody s q).selected_job_id = some j ∧
    (buildRequestBody s q).folder_paths = none ∧
    (buildRequestBody s q).folder_default_job_ids = none ∧
    (∀ ps ds,
      buildRequestBody { s with selectedFolderPaths := ps, folderDefaultJobIds := ds } q =
        buildRequestBody s q) := by
  refine ⟨?_, ?_, ?_, ?_, ?_⟩ <;> simp [buildRequestBody, hj]

/-- Witness for C4 at a state selecting `設備A` alongside the explicit
reference `JOB-9`. -/
theorem explicit_job_filter_precedence_witness :
    (buildRequestBody demoExplicitJobState "q").jobId = some "JOB-9" ∧
    (buildRequestBody demoExplicitJobState "q").folder_paths = none ∧
    (buildRequestBody demoExplicitJobState "q").folder_default_job_ids = none := by
  have h := explicit_job_filter_precedence demoExplicitJobState "q" "JOB-9" rfl (by decide)
  exact ⟨h.1, h.2.2.1, h.2.2.2.1⟩

/-! ## C8: paths without a known default are dropped from the filter -/

/--
C8: with no explicit job reference, the filter-pair map built by
`loadDefaultJobIdsForFolders` holds `(path, jobId)` exactly when the path
was selected and its default lookup yielded that value — a selected path
whose lookup yields nothing is dropped without error, each path with a
known default contributes exactly one pair, and the submitted body
carries exactly this map (or omits the field when the map is empty) next
to `folder_paths`.
-/
theorem missing_default_dropped_from_filter
    (defaultJobAt : String → Option String) (paths : List String)
    (s : AppState) (q : String)
    (hnd : paths.Nodup)
    (hjob : s.selectedJobId = none)
    (hpaths : s.selectedFolderPaths = paths)
    (hdef : s.folderDefaultJobIds = loadDefaultJobIdsForFolders defaultJobAt paths) :
    (∀ p jid, (p, jid) ∈ loadDefaultJobIdsForFolders defaultJobAt paths ↔
        p ∈ paths ∧ defaultJobAt p = some jid) ∧
    (loadDefaultJobIdsForFolders defaultJobAt paths).length =
      (paths.filter (fun p => (defaultJobAt p).isSome)).length ∧
    ((loadDefaultJobIdsForFolders defaultJobAt paths).map Prod.fst).Nodup ∧
    (buildRequestBody s q).folder_paths = some paths ∧
    (buildRequestBody s q).folder_default_job_ids =
      (if (loadDefaultJobIdsForFolders defaultJobAt paths).length > 0
        then some (loadDefaultJobIdsForFolders defaultJobAt paths) else none) := by
  refine ⟨?_, ?_, ?_, ?_, ?_⟩
  · intro p jid
    rw [loadDefault_eq_filterMap, List.mem_filterMap]
    constructor
    · rintro ⟨a, ha, hfa⟩
      rcases hx : defaultJobAt a with _ | jv <;> rw [hx] at hfa
      · simp at hfa
      · simp at hfa
        obtain ⟨h1, h2⟩ := hfa
        exact ⟨h1 ▸ ha, h1 ▸ hx ▸ congrArg some h2⟩
    · rintro ⟨hp, hd⟩
      exact ⟨p, hp, by rw [hd]; rfl⟩
  · rw [← loadDefault_map_fst defaultJobAt paths, List.length_map]
  · rw [loadDefault_map_fst]
    exact hnd.filter _
  · simp [buildRequestBody, hjob, hpaths]
  · simp [buildRequestBody, hjob, hdef]

/-- Witness for C8: collections `A` (default `g1`) and `B` (no default). -/
theorem missing_default_dropped_from_filter_witness :
    (("A", "g1") ∈ loadDefaultJobIdsForFolders demoDefaultJob ["A", "B"]) ∧
    (¬ ∃ jid, ("B", jid) ∈ loadDefaultJobIdsForFolders demoDefaultJob ["A", "B"]) ∧
    (buildRequestBody demoFolderState "q").folder_default_job_ids = some [("A", "g1")] := by
  have h := missing_default_dropped_from_filter demoDefaultJob ["A", "B"]
    demoFolderState "q" (by decide) rfl rfl rfl
  refine ⟨(h.1 "A" "g1").mpr ⟨by decide, rfl⟩, ?_, ?_⟩
  · rintro ⟨jid, hj⟩
    have := (h.1 "B" jid).mp hj
    simp [demoDefaultJob] at this
  · have h5 := h.2.2.2.2
    simpa [loadDefaultJobIdsForFolders, demoDefaultJob] using h5

/-! ## C5: session id across reloads -/

/--
C5 counterexample: a reload 4000 ms after the previous load (well past
the ~100 ms threshold, so a hard refresh is detected) with no stored
collection selection still comes up with the **old** session id — the id
lives in per-tab `sessionStorage` under `'verificationPlanSessionId'`,
which `initializeChatSession` reuses unconditionally and which no code
path clears on reload — refuting "causes a new sessionId to be issued".
-/
theorem hard_reload_keeps_sessionId_cex :
    (pageLoad 5000 (some 1) (fun _ => 0) reloadDemoBrowser).isHardRefresh = true ∧
    reloadDemoBrowser.storedFolderPaths = none ∧
    storeGet reloadDemoBrowser.sessionStore "verificationPlanSessionId" =
      some "verification_old" ∧
    (pageLoad 5000 (some 1) (fun _ => 0) reloadDemoBrowser).chatSessionId =
      "verification_old" := by
  refine ⟨rfl, rfl, rfl, by decide⟩

/--
C5 amended: a reload within the ~100 ms threshold preserves the existing
`sessionId`, and so does a reload past the threshold — the stored id is
always reused; a fresh `'verification_' + UUID` id is issued only when the
tab's session storage holds none.  What the past-threshold reload with no
resumed selection does clear is the collection selection, leaving the
input disabled and opening the selection dialog.
-/
theorem sessionId_reload_stability (now : Int) (perfNavType : Option Nat)
    (rnd : Nat → Nat) (b : BrowserState) :
    (∀ sid, storeGet b.sessionStore "verificationPlanSessionId" = some sid →
      (pageLoad now perfNavType rnd b).chatSessionId = sid) ∧
    (storeGet b.sessionStore "verificationPlanSessionId" = none →
      (pageLoad now perfNavType rnd b).chatSessionId = modeTag ++ generateUUID rnd) ∧
    ((pageLoad now perfNavType rnd b).isHardRefresh = true →
      (pageLoad now perfNavType rnd b).selectedFolderPaths = [] ∧
      (pageLoad now perfNavType rnd b).queryInputDisabled = true ∧
      (pageLoad now perfNavType rnd b).modalOpened = true) := by
  have hstore :
      (detectHardRefresh now perfNavType b.sessionStore).2 =
        storeSet b.sessionStore "lastPageLoadTime" (toString now) := by
    cases perfNavType <;> rfl
  have hget :
      storeGet (detectHardRefresh now perfNavType b.sessionStore).2
          "verificationPlanSessionId" =
        storeGet b.sessionStore "verificationPlanSessionId" := by
    rw [hstore]
    exact storeGet_set_ne _ _ _ _ (by decide)
  have hsid :
      (pageLoad now perfNavType rnd b).chatSessionId =
        (initializeChatSession (generateUUID rnd)
          (detectHardRefresh now perfNavType b.sessionStore).2).1 := by
    by_cases hc : (detectHardRefresh now perfNavType b.sessionStore).1 <;>
      simp [pageLoad, hc]
  refine ⟨?_, ?_, ?_⟩
  · intro sid hs
    rw [hsid]
    unfold initializeChatSession
    rw [hget, hs]
  · intro hs
    rw [hsid]
    unfold initializeChatSession
    rw [hget, hs]
  · intro hh
    by_cases hc : (detectHardRefresh now perfNavType b.sessionStore).1
    · simp [pageLoad, hc]
    · simp [pageLoad, hc] at hh

/-- Witness for C5's amended theorem at the reloaded demo tab. -/
theorem sessionId_reload_stability_witness :
    (pageLoad 5000 (some 1) (fun _ => 0) reloadDemoBrowser).chatSessionId =
      "verification_old" ∧
    (pageLoad 5000 (some 1) (fun _ => 0) reloadDemoBrowser).selectedFolderPaths = [] ∧
    (pageLoad 5000 (some 1) (fun _ => 0) reloadDemoBrowser).modalOpened = true := by
  have h := sessionId_reload_stability 5000 (some 1) (fun _ => 0) reloadDemoBrowser
  exact ⟨h.1 "verification_old" rfl, (h.2.2 (by decide)).1, (h.2.2 (by decide)).2.2⟩

/-! ## C6: every generated session id carries the mode prefix -/

/--
C6: the id generated on first load does carry the `verification_` mode
namespace, but the id generated by an explicit session reset is a bare
UUID — its first character is a hex digit, never `v` — so it lacks the
mode-specific prefix; moreover `resetChatSession` stores it under the
unrelated key `'chatSessionId'`, leaving whatever sat under
`'verificationPlanSessionId'` untouched.
-/
theorem reset_session_id_lacks_mode_tag (rnd : Nat → Nat)
    (st st2 : List (String × String))
    (h : storeGet st2 "verificationPlanSessionId" = none) :
    modePrefixed (resetChatSession (generateUUID rnd) st).1 = false ∧
    modePrefixed (initializeChatSession (generateUUID rnd) st2).1 = true ∧
    storeGet (resetChatSession (generateUUID rnd) st).2 "verificationPlanSessionId" =
      storeGet st "verificationPlanSessionId" := by
  refine ⟨modePrefixed_generateUUID rnd, ?_, ?_⟩
  · unfold initializeChatSession
    rw [h]
    exact modePrefixed_append_tag _
  · unfold resetChatSession
    rw [storeGet_set_ne _ _ _ _ (by decide), storeGet_remove_ne _ _ _ (by decide)]

/-- Witness for C6's theorem at the all-zero random stream. -/
theorem reset_session_id_lacks_mode_tag_witness :
    modePrefixed (resetChatSession (generateUUID (fun _ => 0)) []).1 = false ∧
    modePrefixed (initializeChatSession (generateUUID (fun _ => 0)) []).1 = true ∧
    storeGet (resetChatSession (generateUUID (fun _ => 0)) []).2
      "verificationPlanSessionId" = none := by
  have h := reset_session_id_lacks_mode_tag (fun _ => 0) [] [] rfl
  exact ⟨h.1, h.2.1, by rw [h.2.2]; rfl⟩

/-! ## C7: the single network chokepoint -/

/--
C7 counterexample: `loadChatHistory` calls the transport directly
(line 928: `fetch(...)`, not `this.apiRequest(...)`): its request carries
no `Authorization` bearer header at all, and it is the one outbound call
site of the component that does not go through the `apiRequest` wrapper —
so "every outbound network call goes through the Authenticated Request
Client" is false.
-/
theorem loadChatHistory_bypasses_apiRequest_cex :
    (loadChatHistoryRequest "https://api.example.com").headers.find?
        (fun h => h.1 == "Authorization") = none ∧
    (loadChatHistoryRequest "https://api.example.com").headers =
      [("Content-Type", "application/json")] ∧
    (outboundCallSites.filter (fun c => !c.2)).map Prod.fst = [loadChatHistorySite] := by
  refine ⟨rfl, rfl, by decide⟩

/--
C7 amended: every outbound network call of `verification-plan.js` other
than `loadChatHistory`'s history-retrieval POST goes through the
`apiRequest` wrapper; `loadChatHistory` alone calls the transport
directly, sending only a `Content-Type` header and no bearer header.
-/
theorem all_other_calls_via_apiRequest (c : String × Bool)
    (hc : c ∈ outboundCallSites) (hne : c.1 ≠ loadChatHistorySite) :
    c.2 = true ∧
    ∀ ep, (loadChatHistoryRequest ep).headers.find?
        (fun h => h.1 == "Authorization") = none := by
  refine ⟨?_, fun ep => rfl⟩
  simp only [outboundCallSites, List.mem_cons, List.not_mem_nil, or_false] at hc
  rcases hc with rfl | rfl | rfl | rfl | rfl | rfl | rfl | rfl | rfl | rfl
  · rfl
  · rfl
  · exact absurd rfl hne
  · rfl
  · rfl
  · rfl
  · rfl
  · rfl
  · rfl
  · rfl

/-- Witness for C7's amended theorem at the query-start call site. -/
theorem all_other_calls_via_apiRequest_witness :
    (("submitQuery POST /knowledge-query/start", true) : String × Bool).2 = true ∧
    ∀ ep, (loadChatHistoryRequest ep).headers.find?
        (fun h => h.1 == "Authorization") = none :=
  all_other_calls_via_apiRequest ("submitQuery POST /knowledge-query/start", true)
    (by decide) (by decide)

/-! ## C9: feedback idempotence, no optimistic update -/

lemma findMessage_applyFeedback (msgs : List Message) (mid : String)
    (rt : Option Nat) (ct : Option String) :
    findMessage (applyFeedback mid rt ct msgs) mid =
      (findMessage msgs mid).map
        (fun m =>
          { m with
              rating := if rt.isSome then rt else m.rating
              comment := if ct.isSome then ct else m.comment }) := by
  induction msgs with
  | nil => rfl
  | cons m rest ih =>
      by_cases hm : m.messageId = some mid
      · simp [applyFeedback, hm, findMessage, List.find?_cons]
      · simp only [applyFeedback, if_neg hm]
        simp [findMessage, List.find?_cons, hm] at ih ⊢
        exact ih

lemma applyFeedback_idem (mid : String) (rt : Nat) (ct : Option String) :
    ∀ msgs, applyFeedback mid (some rt) ct (applyFeedback mid (some rt) ct msgs) =
      applyFeedback mid (some rt) ct msgs := by
  intro msgs
  induction msgs with
  | nil => rfl
  | cons m rest ih =>
      by_cases hm : m.messageId = some mid
      · simp only [applyFeedback, if_pos hm]
        simp [applyFeedback, hm]
        cases ct <;> simp
      · simp only [applyFeedback, if_neg hm, ih]

lemma feedback_foldl_last (mid : String) :
    ∀ (rs : List Nat) (r : Nat), rs.getLast? = some r →
      ∀ (msgs : List Message) (m : Message), findMessage msgs mid = some m →
        (findMessage
            (rs.foldl (fun ms x => submitFeedback true ms mid (some x) none) msgs)
            mid).map Message.rating = some (some r) := by
  intro rs
  induction rs with
  | nil => intro r hr; simp at hr
  | cons x rest ih =>
      intro r hr msgs m hm
      have hstep :
          findMessage (submitFeedback true msgs mid (some x) none) mid =
            some { m with rating := some x } := by
        simp [submitFeedback, findMessage_applyFeedback, hm]
      cases rest with
      | nil =>
          simp only [List.getLast?_singleton, Option.some.injEq] at hr
          subst hr
          simp only [List.foldl_cons, List.foldl_nil, hstep]
          rfl
      | cons y t =>
          rw [List.getLast?_cons_cons] at hr
          rw [List.foldl_cons]
          exact ih r hr _ _ hstep

/--
C9: feedback is applied to the local transcript only after the server
confirms — a failed `submitFeedback` leaves the messages exactly as they
were (no optimistic state to roll back) — successful submission of the
same `{messageId, rating}` twice is idempotent, and after any non-empty
sequence of successful rating submissions for a message the local
Message's rating equals the last submitted value.
-/
theorem feedback_last_write_wins (msgs : List Message) (mid : String)
    (rs : List Nat) (r : Nat) (m : Message)
    (hlast : rs.getLast? = some r)
    (hm : findMessage msgs mid = some m) :
    (findMessage
        (rs.foldl (fun ms x => submitFeedback true ms mid (some x) none) msgs)
        mid).map Message.rating = some (some r) ∧
    (∀ ms mid2 rt ct, submitFeedback false ms mid2 rt ct = ms) ∧
    (∀ ms mid2 rt ct,
      submitFeedback true (submitFeedback true ms mid2 (some rt) ct) mid2 (some rt) ct =
        submitFeedback true ms mid2 (some rt) ct) := by
  refine ⟨feedback_foldl_last mid rs r hlast msgs m hm, ?_, ?_⟩
  · intro ms mid2 rt ct; rfl
  · intro ms mid2 rt ct; simp [submitFeedback, applyFeedback_idem]

/-- Witness for C9: ratings 3 then 5 on the demo assistant message. -/
theorem feedback_last_write_wins_witness :
    (findMessage
        ([3, 5].foldl (fun ms x => submitFeedback true ms "m1" (some x) none) demoMsgs)
        "m1").map Message.rating = some (some 5) ∧
    (∀ ms mid2 rt ct, submitFeedback false ms mid2 rt ct = ms) := by
  have h := feedback_last_write_wins demoMsgs "m1" [3, 5] 5 demoMsg rfl rfl
  exact ⟨h.1, h.2.1⟩

/-! ## C10: escaping removes raw markup -/

lemma noSpecialChars_append (a b : List Char) :
    noSpecialChars (a ++ b) = (noSpecialChars a && noSpecialChars b) := by
  simp [noSpecialChars, List.all_append]

lemma escChar_no_special (c : Char) : noSpecialChars (escChar c) = true := by
  by_cases h1 : c = '&'
  · subst h1; decide
  · by_cases h2 : c = '<'
    · subst h2; decide
    · by_cases h3 : c = '>'
      · subst h3; decide
      · by_cases h4 : c = '"'
        · subst h4; decide
        · by_cases h5 : c = '\''
          · subst h5; decide
          · simp [escChar, h1, h2, h3, h4, h5, noSpecialChars]

lemma escList_no_special : ∀ cs, noSpecialChars (escList cs) = true := by
  intro cs
  induction cs with
  | nil => rfl
  | cons c rest ih =>
      show noSpecialChars (escChar c ++ escList rest) = true
      rw [noSpecialChars_append, escChar_no_special, ih]
      rfl

lemma marksOk_amp_block (c : Char) (l : List Char)
    (hl : marksOk '&' htmlEntities l = true) :
    marksOk '&' htmlEntities (escChar c ++ l) = true := by
  have hl2 : marksOk '&'
      [['&', 'a', 'm', 'p', ';'], ['&', 'l', 't', ';'], ['&', 'g', 't', ';'],
        ['&', 'q', 'u', 'o', 't', ';'], ['&', '#', '0', '3', '9', ';']] l = true := by
    simpa [htmlEntities] using hl
  by_cases h1 : c = '&'
  · subst h1
    simp [escChar, marksOk, anyStartsHere, isPrefixList, htmlEntities, hl2]
  · by_cases h2 : c = '<'
    · subst h2
      simp [escChar, marksOk, anyStartsHere, isPrefixList, htmlEntities, hl2]
    · by_cases h3 : c = '>'
      · subst h3
        simp [escChar, marksOk, anyStartsHere, isPrefixList, htmlEntities, hl2]
      · by_cases h4 : c = '"'
        · subst h4
          simp [escChar, marksOk, anyStartsHere, isPrefixList, htmlEntities, hl2]
        · by_cases h5 : c = '\''
          · subst h5
            simp [escChar, marksOk, anyStartsHere, isPrefixList, htmlEntities, hl2]
          · have he : escChar c = [c] := by simp [escChar, h1, h2, h3, h4, h5]
            rw [he]
            show marksOk '&' htmlEntities (c :: l) = true
            simp [marksOk, h1, hl]

lemma marksOk_amp_escList : ∀ cs, marksOk '&' htmlEntities (escList cs) = true := by
  intro cs
  induction cs with
  | nil => rfl
  | cons c rest ih => exact marksOk_amp_block c (escList rest) ih

lemma no_special_not_lt (l : List Char) (h : noSpecialChars l = true) :
    ∀ c ∈ l, ¬ c = '<' := by
  intro c hc hlt
  subst hlt
  have := List.all_eq_true.mp h _ hc
  simp at this

lemma marksOk_brList (l : List Char) (h : ∀ c ∈ l, ¬ c = '<') :
    marksOk '<' ["<br>".data] (brList l) = true := by
  induction l with
  | nil => rfl
  | cons c rest ih =>
      have hc := h c (List.mem_cons_self c rest)
      have hrest : ∀ d ∈ rest, ¬ d = '<' := fun d hd => h d (List.mem_cons_of_mem _ hd)
      show marksOk '<' ["<br>".data] (brChar c ++ brList rest) = true
      by_cases hn : c = '\n'
      · subst hn
        simp [brChar, marksOk, anyStartsHere, isPrefixList, ih hrest]
      · have he : brChar c = [c] := by simp [brChar, hn]
        rw [he]
        show marksOk '<' ["<br>".data] (c :: brList rest) = true
        simp [marksOk, hc, ih hrest]

/--
C10: for every input string, `escapeHtml`'s output contains none of the
characters `< > " '`, and every `&` in it begins one of the five entities
`&amp; &lt; &gt; &quot; &#039;`; the content markup `renderChatHistory`
inserts (`escapeHtml` then newline→`<br>`) contains `<` only as the start
of the renderer's own `<br>`, so message text can never contribute a raw
HTML tag; and the rendered markup of a message depends on its content
only through `escapeHtml` (`renderChatHistory` being the join of the
per-message markup).
-/
theorem escapeHtml_renders_no_raw_tags (s c1 c2 : String) (msg : Message)
    (hesc : escapeHtml c1 = escapeHtml c2) :
    noSpecialChars (escapeHtml s).data = true ∧
    marksOk '&' htmlEntities (escapeHtml s).data = true ∧
    marksOk '<' ["<br>".data] (contentMarkup s).data = true ∧
    (∀ msgs, renderChatHistory msgs = String.join (msgs.map renderMessageHtml)) ∧
    renderMessageHtml { msg with content := c1 } =
      renderMessageHtml { msg with content := c2 } := by
  refine ⟨escList_no_special s.data, marksOk_amp_escList s.data, ?_, fun msgs => rfl, ?_⟩
  · exact marksOk_brList (escList s.data)
      (no_special_not_lt (escList s.data) (escList_no_special s.data))
  · simp [renderMessageHtml, contentMarkup, feedbackBlockHtml, hesc]

/-- Witness for C10 at a string of all five special characters. -/
theorem escapeHtml_renders_no_raw_tags_witness :
    noSpecialChars (escapeHtml "a<b>&\"'\nc").data = true ∧
    marksOk '&' htmlEntities (escapeHtml "a<b>&\"'\nc").data = true ∧
    marksOk '<' ["<br>".data] (contentMarkup "a<b>&\"'\nc").data = true := by
  have h := escapeHtml_renders_no_raw_tags "a<b>&\"'\nc" "x" "x" demoMsg rfl
  exact ⟨h.1, h.2.1, h.2.2.1⟩

end VerifPlan
